import Mathlib

/-!
Shallow embedding of `src/prism/python/prism/core/imager.py`
(class `SparseModelingImager` and its cross-validation parameter search
`cvforgridvis`, plus `computegridmse`, `initializecv`, `finalizecv` and the
type-guarded property setters).

Numbers (Python floats holding values such as `1e-2`) are modelled as exact
rationals `ℚ`; `int(math.log10(x))` is modelled by an exact truncated base-10
logarithm on positive rationals.  The file system touched by the search is
modelled as a duplicate-free list of file names; the side effects of a run
(artifact files, the raw-data file, the number of solver invocations) are
returned explicitly.
-/

/-- A Python value passed in `l1_list` / `ltsv_list`, classified by how
`numpy.asarray` coerces it: a numeric scalar; a string (a list holding one
makes the whole array a string dtype, never `object`); a single-element
numeric sublist `[q]` (an all-sublist list becomes a 2-D float array, never
`object`); or an element numpy cannot coerce at all (`None`, a dict, …),
which forces `object` dtype. -/
inductive PyVal where
  | num (q : ℚ)
  | str (s : String)
  | nested (q : ℚ)
  | obj
deriving DecidableEq, Repr

/-- Element numpy cannot coerce (forces an `object`-dtype array). -/
def PyVal.isObj : PyVal → Bool
  | .obj => true
  | _ => false

/-- String element (drives the array to a string dtype). -/
def PyVal.isStr : PyVal → Bool
  | .str _ => true
  | _ => false

/-- Single-element numeric sublist (a row of a would-be 2-D float array). -/
def PyVal.isNested : PyVal → Bool
  | .nested _ => true
  | _ => false

/-- Numeric payload of a `PyVal`: the scalar itself, or the value inside a
single-element sublist, which numpy's float conversions (`math.log10`,
solver input) unwrap transparently.  For `str`/`obj` the payload is junk:
no observable path of the model reads it (such lists either fail the dtype
validation or abort at the first `int(math.log10(...))`). -/
def PyVal.toQ : PyVal → ℚ
  | .num q => q
  | .nested q => q
  | .str _ => 0
  | .obj => 0

/-- Whether `numpy.asarray(l)` yields an `object`-dtype array: some element
is uncoercible, or the list raggedly mixes sublists with scalar/string
elements (rows of unequal shape also land in `object` dtype on the numpy
generation this Python-2 code runs on). -/
def dtypeIsObject (l : List PyVal) : Bool :=
  l.any PyVal.isObj || (l.any PyVal.isNested && l.any (fun v => !v.isNested))

/-- Whether `numpy.asarray(l)` yields a string-dtype array: not `object`
dtype, and some element is a string — numpy then coerces every element of
the array to a string, so the dtype check at lines 214-217 passes. -/
def isStringDtype (l : List PyVal) : Bool :=
  !dtypeIsObject l && l.any PyVal.isStr

/-- Errors surfaced by the modelled Python code.  `argumentError` stands for
the `raise ArgumentError(...)` sites of `cvforgridvis` (in CPython the name
`ArgumentError` is undefined, so a `NameError` surfaces at the same program
point; either way the call aborts there).  `osError` is `os.remove` on a
missing path, `sameFileError` is `shutil.copy2` onto the source path itself,
`valueError` is `numpy.argmin` on an empty list, `typeError` is the property
setters' rejection and the `int(math.log10(...))` failure on a string-dtype
candidate inside the sweep loop. -/
inductive PyErr where
  | argumentError
  | osError (path : String)
  | sameFileError
  | valueError
  | typeError
deriving DecidableEq, Repr

/-- Fuel-driven truncated log10 for `q ≥ 1`: number of times `q` can be
divided by 10 before dropping below 10. -/
def log10fuel : Nat → ℚ → Nat
  | 0, _ => 0
  | fuel + 1, q => if q < 10 then 0 else log10fuel fuel (q / 10) + 1

/-- Fuel-driven ceiling helper for `0 < q < 1`: smallest `e` with
`q * 10 ^ e ≥ 1`. -/
def clog10fuel : Nat → ℚ → Nat
  | 0, _ => 0
  | fuel + 1, q => if 1 ≤ q then 0 else clog10fuel fuel (q * 10) + 1

/-- Model of Python `int(math.log10(q))` for a positive rational `q`
(truncation toward zero of the base-10 logarithm).  Values `q ≤ 0` are
outside the domain (Python raises a math domain error there). -/
def ilog10 (q : ℚ) : Int :=
  let fuel := q.den + q.num.natAbs + 1
  if 1 ≤ q then (log10fuel fuel q : Int)
  else
    let e := clog10fuel fuel q
    if q * 10 ^ e = 1 then -(e : Int) else -((e : Int) - 1)

/-- `imagesuffix` property of `SparseModelingImager`. -/
def imagesuffix : String := "pickle"

/-- The per-trial artifact name
`'L1_{0}_Ltsv_{1}.{2}'.format(int(math.log10(L1)), int(math.log10(Ltsv)), self.imagesuffix)`. -/
def imagename (L1 Ltsv : ℚ) : String :=
  "L1_" ++ toString (ilog10 L1) ++ "_Ltsv_" ++ toString (ilog10 Ltsv) ++ "." ++ imagesuffix

/-- Ascending value sort, the model of indexing by `numpy.argsort`'s
permutation (`sorted_l1_list = np_l1_list[L1_sort_index]`). -/
def sortAsc (l : List ℚ) : List ℚ :=
  List.insertionSort (fun a b => a ≤ b) l

/-- The sweep order of `cvforgridvis`: `Ltsv` ascending in the outer loop
(`for j in xrange(num_Ltsv)`), `L1` descending in the inner loop
(`for i in xrange(num_L1 - 1, -1, -1)`); each visited trial is the pair
`(L1, Ltsv)`. -/
def sweepOrder (l1s ltsvs : List ℚ) : List (ℚ × ℚ) :=
  (sortAsc ltsvs).flatMap (fun ltsv => (sortAsc l1s).reverse.map (fun l1 => (l1, ltsv)))

/-- Model of `numpy.argmin`: index of the first occurrence of the minimum
value (ties keep the earliest index). -/
def argmin : List ℚ → Nat
  | [] => 0
  | [_] => 0
  | x :: y :: rest =>
    if x ≤ (y :: rest).getD (argmin (y :: rest)) 0 then 0
    else argmin (y :: rest) + 1

/-- Model of `computegridmse(l1, ltsv, ...)`.  `num_fold` is
`self.visset.num_fold`; `meanMse` stands for the value
`evaluator.get_mean_mse()` computed by the external `cv` module over the
`num_fold` per-fold solver runs.  The result pairs the returned MSE with the
number of solver invocations performed for cross validation: for
`num_fold <= 1` the sentinel `-1.0` is returned at once and no per-fold
reconstruction is run. -/
def computegridmse (num_fold : Nat) (l1 ltsv : ℚ) (meanMse : ℚ) : ℚ × Nat :=
  if num_fold ≤ 1 then (-1, 0)
  else
    have _ := l1
    have _ := ltsv
    (meanMse, num_fold)

/-- One line of the raw data file: the header `'# L1, Ltsv, MSE'` printed at
`print('# L1, Ltsv, MSE', file=f)`, or one trial line
`'{0}, {1}, {2}'.format(L1, Ltsv, mse)`. -/
inductive DataLine where
  | header
  | triple (L1 Ltsv mse : ℚ)
deriving DecidableEq, Repr

/-- Filesystem insert: creating (or overwriting) a file, as done by
`exportimage(imagename, overwrite=True)` and `shutil.copy2`. -/
def insertFile (fs : List String) (n : String) : List String :=
  if n ∈ fs then fs else fs ++ [n]

/-- `os.remove`: drops the file, raising `OSError` when it does not exist. -/
def removeFile (fs : List String) (n : String) : Except PyErr (List String) :=
  if n ∈ fs then .ok (fs.erase n) else .error (.osError n)

/-- The `imagepolicy == 'best'` cleanup loop
`for imagename in result_image: os.remove(imagename)`, with the filesystem
state at the point of failure preserved. -/
def cleanupRun : List String → List String → Except PyErr Unit × List String
  | fs, [] => (.ok (), fs)
  | fs, n :: rest => if n ∈ fs then cleanupRun (fs.erase n) rest else (.error (.osError n), fs)

/-- Mutable trial bookkeeping accumulated by the double loop of
`cvforgridvis` (`result_L1`, `result_Ltsv`, `result_mse`, `result_image`,
the artifact files written so far, the data-file lines printed so far, and
the number of solver invocations). -/
structure TrialState where
  files : List String
  datalines : List DataLine
  resultL1 : List ℚ
  resultLtsv : List ℚ
  resultMse : List ℚ
  resultImage : List String
  solverCalls : Nat
deriving DecidableEq, Repr

/-- The artifact name of the trial `p = (L1, Ltsv)`. -/
def trialName (p : ℚ × ℚ) : String := imagename p.1 p.2

/-- The MSE recorded for the trial `p`: the value `computegridmse` returns
for it (`f` abstracting the external evaluator's mean). -/
def trialMse (nf : Nat) (f : ℚ → ℚ → ℚ) (p : ℚ × ℚ) : ℚ :=
  (computegridmse nf p.1 p.2 (f p.1 p.2)).1

/-- Solver invocations of the trial `p`: one full-data `mfista` run plus the
per-fold runs of `computegridmse`. -/
def trialCalls (nf : Nat) (f : ℚ → ℚ → ℚ) (p : ℚ × ℚ) : Nat :=
  1 + (computegridmse nf p.1 p.2 (f p.1 p.2)).2

/-- One iteration of the inner loop of `cvforgridvis` for the trial
`p = (L1, Ltsv)`: run the full-data `mfista` (one solver call), export the
trial artifact (overwriting), evaluate `computegridmse`, record the trial and
print its data line. -/
def runTrial (nf : Nat) (f : ℚ → ℚ → ℚ) (st : TrialState) (p : ℚ × ℚ) : TrialState :=
  { files := insertFile st.files (trialName p)
  , datalines := st.datalines ++ [.triple p.1 p.2 (trialMse nf f p)]
  , resultL1 := st.resultL1 ++ [p.1]
  , resultLtsv := st.resultLtsv ++ [p.2]
  , resultMse := st.resultMse ++ [trialMse nf f p]
  , resultImage := st.resultImage ++ [trialName p]
  , solverCalls := st.solverCalls + trialCalls nf f p }

instance {ε α : Type} [DecidableEq ε] [DecidableEq α] : DecidableEq (Except ε α)
  | .error a, .error b => decidable_of_iff (a = b) (by simp)
  | .error _, .ok _ => .isFalse (by simp)
  | .ok _, .error _ => .isFalse (by simp)
  | .ok a, .ok b => decidable_of_iff (a = b) (by simp)

/-- Observable outcome of a `cvforgridvis` call: the value returned (the
result dictionary, as an association list in insertion order) or the error
raised; the artifact files existing on exit; the raw data file (name and
lines) when one was produced; and the total number of solver invocations. -/
structure CVOut where
  result : Except PyErr (List (String × ℚ))
  files : List String
  dataOut : Option (String × List DataLine)
  solverCalls : Nat
deriving DecidableEq, Repr

/-- The data file produced by the run: when `datafile` is not `None` the code
opens the hard-coded name `'cvresult.dat'` (the `datafile` argument's value
is not used for the name) and writes the header line followed by one line per
trial; when `datafile` is `None` output goes to `os.devnull` and no file is
produced. -/
def mkDataOut (df : Option String) (lines : List DataLine) : Option (String × List DataLine) :=
  df.map (fun _ => ("cvresult.dat", lines))

/-- The tail of `cvforgridvis` after the double sweep loop: select the best
trial by `numpy.argmin(result_mse)` (a `ValueError` on an empty trial list),
copy the best image to the canonical name `pre + '.' + imagesuffix` with
`shutil.copy2` (an error when source and destination are the same path), then
apply the image policy: `'full'` keeps every artifact, `'best'` removes every
recorded trial artifact with `os.remove`. -/
def selectAndClean (pre pol : String) (df : Option String) (st : TrialState) : CVOut :=
  if st.resultMse = [] then
    ⟨.error .valueError, st.files, mkDataOut df st.datalines, st.solverCalls⟩
  else
    let k := argmin st.resultMse
    let bestL1 := st.resultL1.getD k 0
    let bestLtsv := st.resultLtsv.getD k 0
    let bestImage := st.resultImage.getD k ""
    let canonical := pre ++ "." ++ imagesuffix
    if bestImage = canonical then
      ⟨.error .sameFileError, st.files, mkDataOut df st.datalines, st.solverCalls⟩
    else
      let files1 := insertFile st.files canonical
      if pol = "full" then
        ⟨.ok [("L1", bestL1), ("Ltsv", bestLtsv)], files1,
          mkDataOut df st.datalines, st.solverCalls⟩
      else
        match cleanupRun files1 st.resultImage with
        | (.ok _, files2) =>
          ⟨.ok [("L1", bestL1), ("Ltsv", bestLtsv)], files2,
            mkDataOut df st.datalines, st.solverCalls⟩
        | (.error e, files2) =>
          ⟨.error e, files2, mkDataOut df st.datalines, st.solverCalls⟩

/-- Model of `SparseModelingImager.cvforgridvis(l1_list, ltsv_list, num_fold,
imageprefix=pre, imagepolicy=pol, summarize, figfile, datafile=df, ...)` for
a fresh session (no visibility-subset generator alive, an empty artifact
directory).  `f` abstracts the mean MSE the external `cv` module computes for
a trial when cross validation is enabled.  Control flow follows the source:
policy sanity check, candidate-list validation, the double sweep loop, best
selection by `numpy.argmin`, `shutil.copy2` of the best image to
`pre + '.' + imagesuffix`, then the image policy. -/
def cvforgridvis (l1v ltsvv : List PyVal) (nf : Nat) (pre pol : String)
    (df : Option String) (f : ℚ → ℚ → ℚ) : CVOut :=
  if ¬(pol = "best" ∨ pol = "full") then
    ⟨.error .argumentError, [], none, 0⟩
  else if dtypeIsObject l1v then
    ⟨.error .argumentError, [], none, 0⟩
  else if dtypeIsObject ltsvv then
    ⟨.error .argumentError, [], none, 0⟩
  else if (l1v ≠ [] ∧ ltsvv ≠ []) ∧ (isStringDtype l1v || isStringDtype ltsvv) = true then
    -- Validation passed although the candidates are not numbers: with a
    -- string-dtype array and both loops non-degenerate, the first inner
    -- iteration raises `TypeError` at `int(math.log10(L1))` (line 262),
    -- after the data file was opened and its header printed (lines 238-242)
    -- and the CV session initialized, but before any artifact export or
    -- solver invocation.
    ⟨.error .typeError, [], mkDataOut df [.header], 0⟩
  else
    selectAndClean pre pol df
      ((sweepOrder (l1v.map PyVal.toQ) (ltsvv.map PyVal.toQ)).foldl
        (runTrial nf f) ⟨[], [.header], [], [], [], [], 0⟩)

/-- Model of `cv.VisibilitySubsetGenerator(self.griddedvis, num_fold)`: the
gridded-visibility argument is abstracted to an identifier. -/
structure VisSubsetGen where
  gv : Nat
  num_fold : Nat
deriving DecidableEq, Repr

/-- `initializecv(num_fold)`: a new generator is created only when none is
alive (`(not hasattr(self, 'visset')) or self.visset is None`); otherwise the
existing generator — including its fold count — is kept and the `num_fold`
argument is ignored. -/
def initializecv (visset : Option VisSubsetGen) (gv : Nat) (nf : Nat) :
    Option VisSubsetGen :=
  match visset with
  | some v => some v
  | none => some ⟨gv, nf⟩

/-- `finalizecv()`: drops the generator. -/
def finalizecv : Option VisSubsetGen := none

/-- Abbreviation: the artifact names of a run's trials in sweep order. -/
def trialNames (l1s ltsvs : List ℚ) : List String :=
  (sweepOrder l1s ltsvs).map trialName

/-- Abbreviation: the recorded MSEs of a run's trials in sweep order. -/
def trialMses (nf : Nat) (f : ℚ → ℚ → ℚ) (l1s ltsvs : List ℚ) : List ℚ :=
  (sweepOrder l1s ltsvs).map (trialMse nf f)

/-- Abbreviation: the trial `cvforgridvis` selects, i.e. the sweep-order
entry at the index `numpy.argmin` returns on the recorded MSEs. -/
def bestTrial (nf : Nat) (f : ℚ → ℚ → ℚ) (l1s ltsvs : List ℚ) : ℚ × ℚ :=
  (sweepOrder l1s ltsvs).getD (argmin (trialMses nf f l1s ltsvs)) (0, 0)

/-- The runtime type of a Python value assigned to one of the three storage
properties: `None`, an instance whose exact type is
`datacontainer.GriddedVisibilityStorage` / `ResultingImageStorage` /
`UVGridConfig` (payload abstracted to an identifier), or any other value —
including instances of subclasses, since `type(value) == C` is an exact
match. -/
inductive PyObj where
  | none
  | gridded (d : Nat)
  | image (d : Nat)
  | uvconfig (d : Nat)
  | other (d : Nat)
deriving DecidableEq, Repr

/-- The three guarded attributes of `SparseModelingImager`; the getters
(`getattr(self, '_griddedvis', None)` etc.) read these fields, whose initial
value is `None`. -/
structure ImagerState where
  griddedvis : PyObj := .none
  imagearray : PyObj := .none
  uvgridconfig : PyObj := .none
deriving DecidableEq, Repr

/-- The `griddedvis` property setter: `None` stores `None`; an exact
`GriddedVisibilityStorage` instance is stored; anything else raises
`TypeError`. -/
def setGriddedvis (st : ImagerState) (v : PyObj) : Except PyErr ImagerState :=
  match v with
  | .none => .ok { st with griddedvis := .none }
  | .gridded d => .ok { st with griddedvis := .gridded d }
  | _ => .error .typeError

/-- The `imagearray` property setter (exact type `ResultingImageStorage`). -/
def setImagearray (st : ImagerState) (v : PyObj) : Except PyErr ImagerState :=
  match v with
  | .none => .ok { st with imagearray := .none }
  | .image d => .ok { st with imagearray := .image d }
  | _ => .error .typeError

/-- The `uvgridconfig` property setter (exact type `UVGridConfig`). -/
def setUvgridconfig (st : ImagerState) (v : PyObj) : Except PyErr ImagerState :=
  match v with
  | .none => .ok { st with uvgridconfig := .none }
  | .uvconfig d => .ok { st with uvgridconfig := .uvconfig d }
  | _ => .error .typeError

/-- Python attribute-assignment semantics around a raising setter: when the
setter raises, the exception propagates and the object is left unchanged. -/
def trySet (setter : ImagerState → PyObj → Except PyErr ImagerState)
    (st : ImagerState) (v : PyObj) : ImagerState :=
  match setter st v with
  | .ok st' => st'
  | .error _ => st

/-- A concrete mean-MSE table used in the spec's selection example: trial
MSEs `(1e-2,1e-2) ↦ 0.5`, `(1e-3,1e-2) ↦ 0.3`, `(1e-2,1e-1) ↦ 0.9`,
`(1e-3,1e-1) ↦ 0.4`. -/
def exampleMse (l1 ltsv : ℚ) : ℚ :=
  if l1 = 1/100 ∧ ltsv = 1/100 then 5/10
  else if l1 = 1/1000 ∧ ltsv = 1/100 then 3/10
  else if l1 = 1/100 ∧ ltsv = 1/10 then 9/10
  else 4/10

theorem argmin_lt_length : ∀ (xs : List ℚ), xs ≠ [] → argmin xs < xs.length
  | [], h => absurd rfl h
  | [_], _ => by simp [argmin]
  | x :: y :: rest, _ => by
    simp only [argmin]
    split
    · simp
    · have ih := argmin_lt_length (y :: rest) (by simp)
      simpa using Nat.succ_lt_succ ih

theorem argmin_le : ∀ (xs : List ℚ) (j : Nat), j < xs.length →
    xs.getD (argmin xs) 0 ≤ xs.getD j 0
  | [], _, hj => by simp at hj
  | [x], j, hj => by
    have : j = 0 := by simpa using Nat.lt_one_iff.mp (by simpa using hj)
    subst this
    simp [argmin]
  | x :: y :: rest, j, hj => by
    simp only [argmin]
    split
    · next hle =>
      match j with
      | 0 => simp
      | j' + 1 =>
        have hj' : j' < (y :: rest).length := by simpa using Nat.lt_of_succ_lt_succ hj
        calc (x :: y :: rest).getD 0 0 = x := by simp
          _ ≤ (y :: rest).getD (argmin (y :: rest)) 0 := hle
          _ ≤ (y :: rest).getD j' 0 := argmin_le (y :: rest) j' hj'
          _ = (x :: y :: rest).getD (j' + 1) 0 := by simp
    · next hlt =>
      have hlt : (y :: rest).getD (argmin (y :: rest)) 0 < x := lt_of_not_le hlt
      match j with
      | 0 =>
        simpa using le_of_lt hlt
      | j' + 1 =>
        have hj' : j' < (y :: rest).length := by simpa using Nat.lt_of_succ_lt_succ hj
        simpa using argmin_le (y :: rest) j' hj'

theorem argmin_first : ∀ (xs : List ℚ) (j : Nat), j < argmin xs →
    xs.getD (argmin xs) 0 < xs.getD j 0
  | [], _, hj => by simp [argmin] at hj
  | [_], _, hj => by simp [argmin] at hj
  | x :: y :: rest, j, hj => by
    simp only [argmin] at hj ⊢
    split
    · next hle =>
      rw [if_pos hle] at hj
      exact absurd hj (Nat.not_lt_zero j)
    · next hnle =>
      rw [if_neg hnle] at hj
      have hlt : (y :: rest).getD (argmin (y :: rest)) 0 < x := lt_of_not_le hnle
      match j with
      | 0 => simpa using hlt
      | j' + 1 =>
        have hj' : j' < argmin (y :: rest) := Nat.lt_of_succ_lt_succ hj
        simpa using argmin_first (y :: rest) j' hj'

theorem foldl_runTrial_resultMse (nf : Nat) (f : ℚ → ℚ → ℚ) :
    ∀ (ts : List (ℚ × ℚ)) (st : TrialState),
      (ts.foldl (runTrial nf f) st).resultMse = st.resultMse ++ ts.map (trialMse nf f)
  | [], st => by simp
  | p :: ts, st => by
    rw [List.foldl_cons, foldl_runTrial_resultMse nf f ts, List.map_cons]
    simp [runTrial]

theorem foldl_runTrial_resultL1 (nf : Nat) (f : ℚ → ℚ → ℚ) :
    ∀ (ts : List (ℚ × ℚ)) (st : TrialState),
      (ts.foldl (runTrial nf f) st).resultL1 = st.resultL1 ++ ts.map Prod.fst
  | [], st => by simp
  | p :: ts, st => by
    rw [List.foldl_cons, foldl_runTrial_resultL1 nf f ts, List.map_cons]
    simp [runTrial]

theorem foldl_runTrial_resultLtsv (nf : Nat) (f : ℚ → ℚ → ℚ) :
    ∀ (ts : List (ℚ × ℚ)) (st : TrialState),
      (ts.foldl (runTrial nf f) st).resultLtsv = st.resultLtsv ++ ts.map Prod.snd
  | [], st => by simp
  | p :: ts, st => by
    rw [List.foldl_cons, foldl_runTrial_resultLtsv nf f ts, List.map_cons]
    simp [runTrial]

theorem foldl_runTrial_resultImage (nf : Nat) (f : ℚ → ℚ → ℚ) :
    ∀ (ts : List (ℚ × ℚ)) (st : TrialState),
      (ts.foldl (runTrial nf f) st).resultImage = st.resultImage ++ ts.map trialName
  | [], st => by simp
  | p :: ts, st => by
    rw [List.foldl_cons, foldl_runTrial_resultImage nf f ts, List.map_cons]
    simp [runTrial]

theorem foldl_runTrial_files (nf : Nat) (f : ℚ → ℚ → ℚ) :
    ∀ (ts : List (ℚ × ℚ)) (st : TrialState),
      (ts.foldl (runTrial nf f) st).files = (ts.map trialName).foldl insertFile st.files
  | [], st => by simp
  | p :: ts, st => by
    rw [List.foldl_cons, foldl_runTrial_files nf f ts, List.map_cons, List.foldl_cons]
    simp [runTrial]

theorem foldl_runTrial_datalines (nf : Nat) (f : ℚ → ℚ → ℚ) :
    ∀ (ts : List (ℚ × ℚ)) (st : TrialState),
      (ts.foldl (runTrial nf f) st).datalines
        = st.datalines ++ ts.map (fun p => DataLine.triple p.1 p.2 (trialMse nf f p))
  | [], st => by simp
  | p :: ts, st => by
    rw [List.foldl_cons, foldl_runTrial_datalines nf f ts, List.map_cons]
    simp [runTrial]

theorem foldl_insertFile_nodup : ∀ (ns acc : List String),
    ns.Nodup → (∀ n ∈ ns, n ∉ acc) → ns.foldl insertFile acc = acc ++ ns
  | [], acc, _, _ => by simp
  | n :: ns, acc, hnd, hout => by
    rw [List.foldl_cons]
    have hne : n ∉ acc := hout n (by simp)
    have h1 : insertFile acc n = acc ++ [n] := by simp [insertFile, hne]
    rw [h1, foldl_insertFile_nodup ns (acc ++ [n]) (List.Nodup.of_cons hnd)]
    · simp
    · intro m hm
      simp only [List.mem_append, List.mem_singleton]
      rintro (h | h)
      · exact hout m (by simp [hm]) h
      · subst h
        exact (List.nodup_cons.mp hnd).1 hm

theorem cleanupRun_removes_all : ∀ (ns rest : List String),
    cleanupRun (ns ++ rest) ns = (.ok (), rest)
  | [], rest => by simp [cleanupRun]
  | n :: ns, rest => by
    simp only [cleanupRun, List.cons_append]
    rw [if_pos (by simp), List.erase_cons_head]
    exact cleanupRun_removes_all ns rest

theorem getD_map_of_lt {α β : Type} (f : α → β) (l : List α) (k : Nat)
    (hk : k < l.length) (d : β) (d' : α) : (l.map f).getD k d = f (l.getD k d') := by
  have h2 : k < (l.map f).length := by simpa using hk
  rw [List.getD_eq_getElem _ _ h2, List.getD_eq_getElem _ _ hk, List.getElem_map]

theorem getD_mem_of_lt (l : List String) (k : Nat) (hk : k < l.length) (d : String) :
    l.getD k d ∈ l := by
  rw [List.getD_eq_getElem _ _ hk]
  exact List.getElem_mem hk

theorem sum_map_const {α : Type} (l : List α) (c : Nat) :
    (l.map (fun _ => c)).sum = l.length * c := by
  induction l with
  | nil => simp
  | cons a l ih => simp [ih, Nat.succ_mul, Nat.add_comm]

theorem length_sweepOrder (l1s ltsvs : List ℚ) :
    (sweepOrder l1s ltsvs).length = ltsvs.length * l1s.length := by
  simp only [sweepOrder, List.length_flatMap, Function.comp_def]
  have h1 : ((sortAsc ltsvs).map fun a => ((sortAsc l1s).reverse.map (fun l1 => (l1, a))).length)
      = (sortAsc ltsvs).map (fun _ => l1s.length) := by
    refine List.map_congr_left ?_
    intro a _
    simp [sortAsc, (List.perm_insertionSort _ _).length_eq]
  rw [h1, sum_map_const]
  simp [sortAsc, (List.perm_insertionSort _ _).length_eq]

theorem sweepOrder_ne_nil (l1s ltsvs : List ℚ) (h1 : l1s ≠ []) (h2 : ltsvs ≠ []) :
    sweepOrder l1s ltsvs ≠ [] := by
  intro h
  have := length_sweepOrder l1s ltsvs
  rw [h] at this
  simp only [List.length_nil] at this
  rcases Nat.mul_eq_zero.mp this.symm with h | h
  · exact h2 (List.length_eq_zero.mp h)
  · exact h1 (List.length_eq_zero.mp h)

theorem foldl_runTrial_solverCalls (nf : Nat) (f : ℚ → ℚ → ℚ) :
    ∀ (ts : List (ℚ × ℚ)) (st : TrialState),
      (ts.foldl (runTrial nf f) st).solverCalls
        = st.solverCalls + (ts.map (trialCalls nf f)).sum
  | [], st => by simp
  | p :: ts, st => by
    rw [List.foldl_cons, foldl_runTrial_solverCalls nf f ts, List.map_cons]
    simp [runTrial, Nat.add_assoc]

theorem cvforgridvis_valid (l1s ltsvs : List ℚ) (nf : Nat) (pre pol : String)
    (df : Option String) (f : ℚ → ℚ → ℚ) (hpol : pol = "best" ∨ pol = "full") :
    cvforgridvis (l1s.map PyVal.num) (ltsvs.map PyVal.num) nf pre pol df f
      = selectAndClean pre pol df
          ((sweepOrder l1s ltsvs).foldl (runTrial nf f) ⟨[], [.header], [], [], [], [], 0⟩) := by
  unfold cvforgridvis
  rw [if_neg (not_not_intro hpol)]
  have hobj : ∀ l : List ℚ, dtypeIsObject (l.map PyVal.num) = false := by
    intro l
    simp [dtypeIsObject, List.any_map, Function.comp_def, PyVal.isObj, PyVal.isNested]
  have hstr : ∀ l : List ℚ, isStringDtype (l.map PyVal.num) = false := by
    intro l
    simp [isStringDtype, List.any_map, Function.comp_def, PyVal.isStr]
  rw [hobj, hobj]
  simp only [Bool.false_eq_true, if_false]
  rw [if_neg (by
    rw [hstr, hstr]
    simp)]
  have h3 : ∀ l : List ℚ, (l.map PyVal.num).map PyVal.toQ = l := by
    intro l
    simp [List.map_map, Function.comp_def, PyVal.toQ]
  rw [h3, h3]

theorem cvforgridvis_run_spec (l1s ltsvs : List ℚ) (nf : Nat) (pre pol : String)
    (df : Option String) (f : ℚ → ℚ → ℚ)
    (hpol : pol = "best" ∨ pol = "full")
    (h1 : l1s ≠ []) (h2 : ltsvs ≠ [])
    (hnd : (trialNames l1s ltsvs).Nodup)
    (hc : pre ++ "." ++ imagesuffix ∉ trialNames l1s ltsvs) :
    cvforgridvis (l1s.map PyVal.num) (ltsvs.map PyVal.num) nf pre pol df f =
      { result := .ok [("L1", (bestTrial nf f l1s ltsvs).1),
                       ("Ltsv", (bestTrial nf f l1s ltsvs).2)]
      , files := if pol = "full"
          then trialNames l1s ltsvs ++ [pre ++ "." ++ imagesuffix]
          else [pre ++ "." ++ imagesuffix]
      , dataOut := mkDataOut df (.header ::
          (sweepOrder l1s ltsvs).map (fun p => DataLine.triple p.1 p.2 (trialMse nf f p)))
      , solverCalls := ((sweepOrder l1s ltsvs).map (trialCalls nf f)).sum } := by
  rw [cvforgridvis_valid l1s ltsvs nf pre pol df f hpol]
  have htne : sweepOrder l1s ltsvs ≠ [] := sweepOrder_ne_nil l1s ltsvs h1 h2
  have hmne : (sweepOrder l1s ltsvs).map (trialMse nf f) ≠ [] := by
    simpa using htne
  have hk : argmin ((sweepOrder l1s ltsvs).map (trialMse nf f)) < (sweepOrder l1s ltsvs).length := by
    have h := argmin_lt_length _ hmne
    rwa [List.length_map] at h
  have hkn : argmin ((sweepOrder l1s ltsvs).map (trialMse nf f)) < (trialNames l1s ltsvs).length := by
    rwa [trialNames, List.length_map]
  have hbi : (trialNames l1s ltsvs).getD (argmin ((sweepOrder l1s ltsvs).map (trialMse nf f))) ""
      ≠ pre ++ "." ++ imagesuffix := by
    intro h
    exact hc (h ▸ getD_mem_of_lt _ _ hkn "")
  simp only [trialNames] at hnd hc hkn hbi
  unfold selectAndClean
  rw [foldl_runTrial_resultMse, foldl_runTrial_resultL1, foldl_runTrial_resultLtsv,
      foldl_runTrial_resultImage, foldl_runTrial_files, foldl_runTrial_datalines,
      foldl_runTrial_solverCalls]
  simp only [List.nil_append]
  rw [if_neg hmne]
  rw [if_neg hbi]
  rw [foldl_insertFile_nodup _ _ hnd (by simp)]
  simp only [List.nil_append]
  rw [show insertFile (List.map trialName (sweepOrder l1s ltsvs)) (pre ++ "." ++ imagesuffix)
      = List.map trialName (sweepOrder l1s ltsvs) ++ [pre ++ "." ++ imagesuffix] from by
    simp [insertFile, hc]]
  rcases hpol with hb | hf
  · subst hb
    rw [if_neg (by decide : ¬("best" = "full"))]
    rw [cleanupRun_removes_all]
    simp only []
    rw [getD_map_of_lt Prod.fst _ _ hk 0 (0, 0), getD_map_of_lt Prod.snd _ _ hk 0 (0, 0)]
    simp [bestTrial, trialMses, trialNames]
  · subst hf
    rw [if_pos rfl]
    rw [getD_map_of_lt Prod.fst _ _ hk 0 (0, 0), getD_map_of_lt Prod.snd _ _ hk 0 (0, 0)]
    simp [bestTrial, trialMses, trialNames]

section
attribute [local semireducible] Rat.mul Rat.inv Rat.add Rat.sub

/-- Claim C2: the candidate values are sorted ascending by value (the sorted
lists depend only on the multisets of values, not on insertion order, and are
ascending permutations of the inputs), and the trials are visited with `Ltsv`
ascending in the outer loop and `L1` descending in the inner loop; for `Ltsv`
candidates `[1e-2, 1e-1]` and `L1` candidates `[1e-3, 1e-2]` the visitation
order is `(1e-2,1e-2), (1e-3,1e-2), (1e-2,1e-1), (1e-3,1e-1)`. -/
theorem cvforgridvis_sweep_order :
    (∀ l1s l1s' ltsvs ltsvs' : List ℚ, l1s.Perm l1s' → ltsvs.Perm ltsvs' →
      sweepOrder l1s ltsvs = sweepOrder l1s' ltsvs')
    ∧ (∀ l : List ℚ, List.Sorted (fun a b => a ≤ b) (sortAsc l) ∧ (sortAsc l).Perm l)
    ∧ (∀ l1s ltsvs : List ℚ, sweepOrder l1s ltsvs
        = (sortAsc ltsvs).flatMap (fun ltsv => (sortAsc l1s).reverse.map (fun l1 => (l1, ltsv))))
    ∧ sweepOrder [1/1000, 1/100] [1/100, 1/10]
        = [(1/100, 1/100), (1/1000, 1/100), (1/100, 1/10), (1/1000, 1/10)] := by
  have hsorted : ∀ l : List ℚ, List.Sorted (fun a b => a ≤ b) (sortAsc l) := by
    intro l
    exact List.sorted_insertionSort _ l
  have hperm : ∀ l : List ℚ, (sortAsc l).Perm l := by
    intro l
    exact List.perm_insertionSort _ l
  have hsort : ∀ l l' : List ℚ, l.Perm l' → sortAsc l = sortAsc l' := by
    intro l l' hp
    exact List.eq_of_perm_of_sorted ((hperm l).trans (hp.trans (hperm l').symm))
      (hsorted l) (hsorted l')
  refine ⟨?_, fun l => ⟨hsorted l, hperm l⟩, fun _ _ => rfl, by decide⟩
  intro l1s l1s' ltsvs ltsvs' hp1 hp2
  unfold sweepOrder
  rw [hsort l1s l1s' hp1, hsort ltsvs ltsvs' hp2]

theorem cvforgridvis_sweep_order_witness :
    sweepOrder [1/100, 1/1000] [1/10, 1/100] = sweepOrder [1/1000, 1/100] [1/100, 1/10] :=
  cvforgridvis_sweep_order.1 [1/100, 1/1000] [1/1000, 1/100] [1/10, 1/100] [1/100, 1/10]
    (by decide) (by decide)

/-- Claim C3: when the fold count of the active cross-validation session is
1, `computegridmse` returns the sentinel `-1.0` for every `(l1, ltsv)` input
and performs no solver invocation for cross validation. -/
theorem computegridmse_k1_sentinel (l1 ltsv meanMse : ℚ) :
    computegridmse 1 l1 ltsv meanMse = (-1, 0) := by
  simp [computegridmse]

/-- Claim C9: `initializecv` leaves an existing visibility-subset generator
(and its fold count) unchanged, ignoring the `num_fold` argument; a generator
honoring the requested `num_fold` is created only when none exists. -/
theorem initializecv_keeps_existing :
    (∀ (v : VisSubsetGen) (gv nf : Nat), initializecv (some v) gv nf = some v)
    ∧ (∀ (gv nf : Nat), initializecv none gv nf = some ⟨gv, nf⟩) :=
  ⟨fun _ _ _ => rfl, fun _ _ => rfl⟩

/-- Claim C10: for each of the `griddedvis`, `imagearray` and `uvgridconfig`
properties, assigning `None` stores `None`, assigning a value of exactly the
corresponding storage class stores it, and assigning any other value (an
instance of one of the other storage classes, or of any other type including
subclasses) raises `TypeError` while the stored value remains unchanged. -/
theorem property_setters_spec (st : ImagerState) (d : Nat) :
    (setGriddedvis st .none = .ok { st with griddedvis := .none }
      ∧ setGriddedvis st (.gridded d) = .ok { st with griddedvis := .gridded d }
      ∧ setGriddedvis st (.image d) = .error .typeError
      ∧ setGriddedvis st (.uvconfig d) = .error .typeError
      ∧ setGriddedvis st (.other d) = .error .typeError
      ∧ trySet setGriddedvis st (.image d) = st
      ∧ trySet setGriddedvis st (.uvconfig d) = st
      ∧ trySet setGriddedvis st (.other d) = st)
    ∧ (setImagearray st .none = .ok { st with imagearray := .none }
      ∧ setImagearray st (.image d) = .ok { st with imagearray := .image d }
      ∧ setImagearray st (.gridded d) = .error .typeError
      ∧ setImagearray st (.uvconfig d) = .error .typeError
      ∧ setImagearray st (.other d) = .error .typeError
      ∧ trySet setImagearray st (.gridded d) = st
      ∧ trySet setImagearray st (.uvconfig d) = st
      ∧ trySet setImagearray st (.other d) = st)
    ∧ (setUvgridconfig st .none = .ok { st with uvgridconfig := .none }
      ∧ setUvgridconfig st (.uvconfig d) = .ok { st with uvgridconfig := .uvconfig d }
      ∧ setUvgridconfig st (.gridded d) = .error .typeError
      ∧ setUvgridconfig st (.image d) = .error .typeError
      ∧ setUvgridconfig st (.other d) = .error .typeError
      ∧ trySet setUvgridconfig st (.gridded d) = st
      ∧ trySet setUvgridconfig st (.image d) = st
      ∧ trySet setUvgridconfig st (.other d) = st) :=
  ⟨⟨rfl, rfl, rfl, rfl, rfl, rfl, rfl, rfl⟩,
   ⟨rfl, rfl, rfl, rfl, rfl, rfl, rfl, rfl⟩,
   ⟨rfl, rfl, rfl, rfl, rfl, rfl, rfl, rfl⟩⟩

end

section
attribute [local semireducible] Rat.mul Rat.inv Rat.add Rat.sub

/-- Claim C4 (code bug): on a completed search the record `cvforgridvis`
returns to its caller holds the winning `L1` and `Ltsv` values, but — against
its own docstring — no `image` key at all: the winning image's path is absent
from the returned dictionary. -/
theorem cvforgridvis_result_lacks_image_key :
    (cvforgridvis [PyVal.num (1/100), PyVal.num (1/1000)]
        [PyVal.num (1/100), PyVal.num (1/10)] 5 "image" "full" none exampleMse).result
      = .ok [("L1", 1/1000), ("Ltsv", 1/100)]
    ∧ Except.map (List.lookup "L1")
        (cvforgridvis [PyVal.num (1/100), PyVal.num (1/1000)]
          [PyVal.num (1/100), PyVal.num (1/10)] 5 "image" "full" none exampleMse).result
      = .ok (some (1/1000))
    ∧ Except.map (List.lookup "Ltsv")
        (cvforgridvis [PyVal.num (1/100), PyVal.num (1/1000)]
          [PyVal.num (1/100), PyVal.num (1/10)] 5 "image" "full" none exampleMse).result
      = .ok (some (1/100))
    ∧ Except.map (List.lookup "image")
        (cvforgridvis [PyVal.num (1/100), PyVal.num (1/1000)]
          [PyVal.num (1/100), PyVal.num (1/10)] 5 "image" "full" none exampleMse).result
      = .ok none := by
  refine ⟨by decide, by decide, by decide, by decide⟩

/-- Claim C5 counterexample: candidate lists the code's validation does not
catch.  A single-element numeric sublist candidate `[[0.01]]` coerces to a
2-D float array, passes the `object`-dtype check, and the run completes with
solver invocations (no error at all, let alone a fail-fast configuration
error); a string candidate `['abc']` coerces to a string-dtype array, also
passes validation, and the run dies with a `TypeError` at the first trial's
`int(math.log10(L1))` — after the data file was already opened and its header
written — not with the validation block's configuration error. -/
theorem cvforgridvis_nonnumeric_evades_validation :
    ((cvforgridvis [PyVal.nested (1/100)] [PyVal.num (1/100), PyVal.num (1/10)] 5
        "image" "full" none (fun _ _ => 0)).result.isOk = true
      ∧ (cvforgridvis [PyVal.nested (1/100)] [PyVal.num (1/100), PyVal.num (1/10)] 5
          "image" "full" none (fun _ _ => 0)).solverCalls = 12)
    ∧ cvforgridvis [PyVal.str "abc"] [PyVal.num (1/100)] 5 "image" "full" (some "mse.dat")
        (fun _ _ => 0)
      = ⟨.error .typeError, [], some ("cvresult.dat", [DataLine.header]), 0⟩ := by
  refine ⟨⟨by decide, by decide⟩, by decide⟩

/-- Claim C5 amended: the fail-fast configuration error covers exactly an
invalid `imagepolicy` or a candidate list that `numpy.asarray` coerces to an
`object`-dtype array (an uncoercible element such as `None` or a dict, or a
ragged mix of sublists and scalars): those runs abort with the validation
block's error before the data file is opened, before the CV session is
initialized and before any solver invocation.  Other non-numeric candidates
evade validation: a string-dtype list aborts with a `TypeError` at the first
trial's `int(math.log10(...))` — still with zero solver invocations, but
after the data file was opened and its header printed — and a single-element
numeric sublist passes validation entirely and behaves like its scalar, so
the run goes on to invoke the solver. -/
theorem cvforgridvis_validation_amended (l1v ltsvv : List PyVal) (nf : Nat)
    (pre pol : String) (df : Option String) (f : ℚ → ℚ → ℚ) :
    ((¬(pol = "best" ∨ pol = "full")
        ∨ dtypeIsObject l1v = true ∨ dtypeIsObject ltsvv = true) →
      cvforgridvis l1v ltsvv nf pre pol df f = ⟨.error .argumentError, [], none, 0⟩)
    ∧ ((pol = "best" ∨ pol = "full") →
        dtypeIsObject l1v = false → dtypeIsObject ltsvv = false →
        l1v ≠ [] → ltsvv ≠ [] → (isStringDtype l1v || isStringDtype ltsvv) = true →
      cvforgridvis l1v ltsvv nf pre pol df f
        = ⟨.error .typeError, [], mkDataOut df [DataLine.header], 0⟩)
    ∧ (∀ q : ℚ, cvforgridvis [PyVal.nested q] ltsvv nf pre pol df f
        = cvforgridvis [PyVal.num q] ltsvv nf pre pol df f) := by
  refine ⟨?_, ?_, ?_⟩
  · intro h
    unfold cvforgridvis
    by_cases hp : ¬(pol = "best" ∨ pol = "full")
    · rw [if_pos hp]
    · rw [if_neg hp]
      by_cases hl : dtypeIsObject l1v = true
      · rw [if_pos hl]
      · rw [if_neg hl]
        have ht : dtypeIsObject ltsvv = true := by
          rcases h with h | h | h
          · exact absurd h hp
          · exact absurd h hl
          · exact h
        rw [if_pos ht]
  · intro hp hl ht hn1 hn2 hs
    unfold cvforgridvis
    rw [if_neg (not_not_intro hp), hl, ht]
    simp only [Bool.false_eq_true, if_false]
    rw [if_pos ⟨⟨hn1, hn2⟩, hs⟩]
  · intro q
    simp [cvforgridvis, dtypeIsObject, isStringDtype, PyVal.isObj, PyVal.isStr,
      PyVal.isNested, PyVal.toQ]

theorem cvforgridvis_validation_amended_witness :
    cvforgridvis [PyVal.obj] [PyVal.num 1] 10 "image" "full" none (fun _ _ => 0)
      = ⟨.error .argumentError, [], none, 0⟩ :=
  (cvforgridvis_validation_amended [PyVal.obj] [PyVal.num 1] 10 "image" "full" none
    (fun _ _ => 0)).1 (Or.inr (Or.inl (by decide)))

/-- Claim C7 counterexample: with `l1_list = [0.02, 0.03]` (both map to the
artifact name `L1_-1_Ltsv_-2.pickle` since `int(log10)` truncates both to
`-1`) and `imagepolicy='best'`, the recorded trial list holds the same
artifact path twice and the cleanup loop raises `OSError` on the second,
already-deleted, occurrence — deleting an already-deleted artifact IS an
error. -/
theorem cvforgridvis_cleanup_duplicate_raises :
    trialNames [2/100, 3/100] [1/100] = ["L1_-1_Ltsv_-2.pickle", "L1_-1_Ltsv_-2.pickle"]
    ∧ (cvforgridvis [PyVal.num (2/100), PyVal.num (3/100)] [PyVal.num (1/100)] 1
        "image" "best" none (fun _ _ => 0)).result
      = .error (.osError "L1_-1_Ltsv_-2.pickle") := by
  refine ⟨by decide, by decide⟩

/-- Claim C7 amended: the cleanup of the `'best'` policy is not idempotent —
`os.remove` on an already-deleted (absent) artifact raises `OSError`; when
every recorded artifact path is still present (the recorded paths being a
prefix of the existing files), the cleanup loop deletes each exactly once and
completes without error. -/
theorem cleanup_not_idempotent_amended (fs : List String) (n : String) (h : n ∉ fs) :
    removeFile fs n = .error (.osError n)
    ∧ (∀ ns rest : List String, cleanupRun (ns ++ rest) ns = (.ok (), rest)) := by
  refine ⟨?_, cleanupRun_removes_all⟩
  simp [removeFile, h]

theorem cleanup_not_idempotent_amended_witness :
    removeFile [] "L1_-1_Ltsv_-2.pickle" = .error (.osError "L1_-1_Ltsv_-2.pickle") :=
  (cleanup_not_idempotent_amended [] "L1_-1_Ltsv_-2.pickle" (by simp)).1

/-- Claim C8 (code bug): with a non-`None` `datafile` argument the raw data
file is written under the hard-coded name `cvresult.dat` — the name given by
`datafile` (here `mse.dat`) is ignored — and its first line is the header
`# L1, Ltsv, MSE`, followed by one `L1, Ltsv, MSE` triple per trial in
sweep-visitation order; with `datafile=None` no file is produced. -/
theorem cvforgridvis_datafile_hardcoded :
    (cvforgridvis [PyVal.num (1/100), PyVal.num (1/1000)]
        [PyVal.num (1/100), PyVal.num (1/10)] 5 "image" "full" (some "mse.dat") exampleMse).dataOut
      = some ("cvresult.dat",
          [DataLine.header,
           DataLine.triple (1/100) (1/100) (5/10),
           DataLine.triple (1/1000) (1/100) (3/10),
           DataLine.triple (1/100) (1/10) (9/10),
           DataLine.triple (1/1000) (1/10) (4/10)])
    ∧ (cvforgridvis [PyVal.num (1/100), PyVal.num (1/1000)]
        [PyVal.num (1/100), PyVal.num (1/10)] 5 "image" "full" none exampleMse).dataOut
      = none := by
  refine ⟨by decide, by decide⟩

end

section
attribute [local semireducible] Rat.mul Rat.inv Rat.add Rat.sub

/-- Claim C1: on every completed search in which cross validation is
performed (fold count at least 2, so every recorded MSE is the evaluator's
mean and not the sentinel), the result returned by `cvforgridvis` is the
trial at the index `numpy.argmin` picks on the recorded MSEs: the trial whose
MSE is minimum over all trials, the first one in sweep order when several
tie; in particular, for trial MSEs `{(1e-2,1e-2): 0.5, (1e-3,1e-2): 0.3,
(1e-2,1e-1): 0.9, (1e-3,1e-1): 0.4}` the best is `L1 = 1e-3`,
`Ltsv = 1e-2`. -/
theorem cvforgridvis_best_selection (l1s ltsvs : List ℚ) (nf : Nat) (pre pol : String)
    (df : Option String) (f : ℚ → ℚ → ℚ)
    (hpol : pol = "best" ∨ pol = "full") (hnf : 2 ≤ nf)
    (h1 : l1s ≠ []) (h2 : ltsvs ≠ [])
    (hnd : (trialNames l1s ltsvs).Nodup)
    (hc : pre ++ "." ++ imagesuffix ∉ trialNames l1s ltsvs) :
    (trialMses nf f l1s ltsvs = (sweepOrder l1s ltsvs).map (fun p => f p.1 p.2)
      ∧ argmin (trialMses nf f l1s ltsvs) < (sweepOrder l1s ltsvs).length
      ∧ (cvforgridvis (l1s.map PyVal.num) (ltsvs.map PyVal.num) nf pre pol df f).result
          = .ok [("L1", (bestTrial nf f l1s ltsvs).1), ("Ltsv", (bestTrial nf f l1s ltsvs).2)]
      ∧ (∀ j < (trialMses nf f l1s ltsvs).length,
          (trialMses nf f l1s ltsvs).getD (argmin (trialMses nf f l1s ltsvs)) 0
            ≤ (trialMses nf f l1s ltsvs).getD j 0)
      ∧ (∀ j < argmin (trialMses nf f l1s ltsvs),
          (trialMses nf f l1s ltsvs).getD (argmin (trialMses nf f l1s ltsvs)) 0
            < (trialMses nf f l1s ltsvs).getD j 0))
    ∧ (cvforgridvis [PyVal.num (1/100), PyVal.num (1/1000)]
          [PyVal.num (1/100), PyVal.num (1/10)] 5 "image" "full" none exampleMse).result
        = .ok [("L1", 1/1000), ("Ltsv", 1/100)] := by
  have hmse_eq : trialMses nf f l1s ltsvs = (sweepOrder l1s ltsvs).map (fun p => f p.1 p.2) := by
    unfold trialMses
    refine List.map_congr_left ?_
    intro p _
    have hn1 : ¬nf ≤ 1 := by omega
    simp [trialMse, computegridmse, hn1]
  have htne : sweepOrder l1s ltsvs ≠ [] := sweepOrder_ne_nil l1s ltsvs h1 h2
  have hmne : trialMses nf f l1s ltsvs ≠ [] := by
    unfold trialMses
    simpa using htne
  have hk : argmin (trialMses nf f l1s ltsvs) < (sweepOrder l1s ltsvs).length := by
    have h := argmin_lt_length _ hmne
    rwa [trialMses, List.length_map] at h
  refine ⟨⟨hmse_eq, hk, ?_, ?_, ?_⟩, by decide⟩
  · rw [cvforgridvis_run_spec l1s ltsvs nf pre pol df f hpol h1 h2 hnd hc]
  · intro j hj
    exact argmin_le (trialMses nf f l1s ltsvs) j hj
  · intro j hj
    exact argmin_first (trialMses nf f l1s ltsvs) j hj

theorem cvforgridvis_best_selection_witness :
    (cvforgridvis ([1/100, 1/1000].map PyVal.num) ([1/100, 1/10].map PyVal.num)
        7 "img" "best" none exampleMse).result
      = .ok [("L1", (bestTrial 7 exampleMse [1/100, 1/1000] [1/100, 1/10]).1),
             ("Ltsv", (bestTrial 7 exampleMse [1/100, 1/1000] [1/100, 1/10]).2)] :=
  ((cvforgridvis_best_selection [1/100, 1/1000] [1/100, 1/10] 7 "img" "best" none exampleMse
      (Or.inl rfl) (by omega) (by decide) (by decide) (by decide) (by decide)).1).2.2.1

/-- Claim C6 counterexample: a completed `'best'`-policy search over trials
with pairwise-distinct artifact names after which ZERO artifact files remain
(not exactly one): with `imageprefix = 'L1_-3_Ltsv_-2'` the canonical best
name `L1_-3_Ltsv_-2.pickle` coincides with the second trial's artifact name,
so the cleanup loop deletes the canonical copy as well. -/
theorem cvforgridvis_best_policy_collision :
    (trialNames [1/100, 1/1000] [1/100]).Nodup
    ∧ (cvforgridvis [PyVal.num (1/100), PyVal.num (1/1000)] [PyVal.num (1/100)] 1
        "L1_-3_Ltsv_-2" "best" none (fun _ _ => 0)).result.isOk = true
    ∧ (cvforgridvis [PyVal.num (1/100), PyVal.num (1/1000)] [PyVal.num (1/100)] 1
        "L1_-3_Ltsv_-2" "best" none (fun _ _ => 0)).files = [] := by
  refine ⟨by decide, by decide, by decide⟩

/-- Claim C6 amended: provided the canonical best name
`imageprefix + '.' + imagesuffix` differs from every trial artifact name (and
the trial artifact names are pairwise distinct), a completed search with
`imagepolicy='best'` leaves exactly one artifact file — the canonical best
copy, created by `shutil.copy2` before any trial artifact is deleted, so the
winning image survives — and a completed search with `imagepolicy='full'`
leaves every trial's artifact plus the canonical best copy. -/
theorem cvforgridvis_artifact_policy (l1s ltsvs : List ℚ) (nf : Nat) (pre : String)
    (df : Option String) (f : ℚ → ℚ → ℚ)
    (h1 : l1s ≠ []) (h2 : ltsvs ≠ [])
    (hnd : (trialNames l1s ltsvs).Nodup)
    (hc : pre ++ "." ++ imagesuffix ∉ trialNames l1s ltsvs) :
    ((cvforgridvis (l1s.map PyVal.num) (ltsvs.map PyVal.num) nf pre "best" df f).result.isOk = true
      ∧ (cvforgridvis (l1s.map PyVal.num) (ltsvs.map PyVal.num) nf pre "best" df f).files
          = [pre ++ "." ++ imagesuffix])
    ∧ ((cvforgridvis (l1s.map PyVal.num) (ltsvs.map PyVal.num) nf pre "full" df f).result.isOk = true
      ∧ (cvforgridvis (l1s.map PyVal.num) (ltsvs.map PyVal.num) nf pre "full" df f).files
          = trialNames l1s ltsvs ++ [pre ++ "." ++ imagesuffix]) := by
  constructor
  · rw [cvforgridvis_run_spec l1s ltsvs nf pre "best" df f (Or.inl rfl) h1 h2 hnd hc]
    exact ⟨rfl, by rw [if_neg (by decide : ¬("best" = "full"))]⟩
  · rw [cvforgridvis_run_spec l1s ltsvs nf pre "full" df f (Or.inr rfl) h1 h2 hnd hc]
    exact ⟨rfl, by rw [if_pos rfl]⟩

theorem cvforgridvis_artifact_policy_witness :
    (cvforgridvis ([1/100, 1/1000].map PyVal.num) ([1/100, 1/10].map PyVal.num)
        5 "image" "best" none exampleMse).result.isOk = true
    ∧ (cvforgridvis ([1/100, 1/1000].map PyVal.num) ([1/100, 1/10].map PyVal.num)
        5 "image" "best" none exampleMse).files = ["image" ++ "." ++ imagesuffix] :=
  (cvforgridvis_artifact_policy [1/100, 1/1000] [1/100, 1/10] 5 "image" none exampleMse
    (by decide) (by decide) (by decide) (by decide)).1

end
